import Mathlib

/-!
Verification development for the covid-scoring training script (`train.py`).

The script defines a `Dataset` (reads an image and an annotation mask, applies
optional augmentation and optional torchvision preprocessing) and a `Model`
(device selection with a batch-size assertion, architecture dispatch by name,
and a 40-epoch training loop with best-IoU checkpointing and a fixed
learning-rate decay at epoch 25).

Embedding conventions:
* Pixel values are rationals (`ℚ`); machine floats do not appear in any claim
  at a precision where rounding matters.
* Python exceptions are the `PyErr` type; fallible code returns `Except`.
* Images and masks are total pixel functions with explicit dimensions.
* External collaborators (cv2 file reads, `read_supervisely_project`,
  `convert_ann_to_mask`, torchvision transforms) are modelled by an
  environment record and by executable semantics of the documented
  transform behaviour.
-/

namespace CovidTrain

/-- Python exception kinds raised by the code under `src/train.py`:
list indexing raises `IndexError`, `Model._get_model` raises `ValueError`,
and the `assert` in `Model.device_selection` raises `AssertionError`. -/
inductive PyErr where
  | indexError : PyErr
  | valueError (msg : String) : PyErr
  | assertionError (msg : String) : PyErr
deriving DecidableEq

/-- Python list indexing `xs[i]` for `i : int`: a negative index counts from
the end (`xs[len + i]`); an index that is still out of range after that
adjustment raises `IndexError`. -/
def pyIndex (xs : List α) (i : Int) : Except PyErr α :=
  let j : Int := if i < 0 then i + xs.length else i
  if h : 0 ≤ j ∧ j.toNat < xs.length then .ok (xs.get ⟨j.toNat, h.2⟩)
  else .error .indexError

/-- Normalized (non-negative) position selected by Python indexing. -/
def pyNormIdx (i : Int) (len : Nat) : Nat :=
  (if i < 0 then i + len else i).toNat

/-- A numeric array with channel/height/width dimensions and rational pixel
values, as produced along the `__getitem__` pipeline.  `isByte` records the
dtype distinction torchvision's `ToTensor` cares about: `true` for the 8-bit
images `cv2.imread` returns (scaled by 1/255 by `ToTensor`), `false` for
float arrays (left unscaled by `ToTensor`). -/
structure Tens where
  channels : Nat
  h : Nat
  w : Nat
  px : Nat → Nat → Nat → ℚ
  isByte : Bool

/-- Raw decoded image file as `cv2.imread` returns it: an H×W×3 array in BGR
channel order, 8-bit pixel values.  `px y x c` is the value at row `y`,
column `x`, channel `c`. -/
structure ImageData where
  h : Nat
  w : Nat
  px : Nat → Nat → Nat → ℚ

/-- A single-channel H×W mask grid. -/
structure GridData where
  h : Nat
  w : Nat
  px : Nat → Nat → ℚ

/-- View a decoded image file as a 3-channel byte tensor (channel-indexed
access; the HWC→CHW layout permutation of `ToTensor` is absorbed into the
access convention). -/
def imreadTens (d : ImageData) : Tens :=
  ⟨3, d.h, d.w, fun c y x => d.px y x c, true⟩

/-- `cv2.cvtColor(image, cv2.COLOR_BGR2RGB)`: reverses the channel order of a
3-channel image. -/
def cvtColorBGR2RGB (t : Tens) : Tens :=
  { t with px := fun c y x => t.px (2 - c) y x }

/-- View a decoded annotation mask as a 1-channel float tensor.
Modelled from the spec: `convert_ann_to_mask` (in `tools/supervisely_tools.py`,
not under `src/`) returns a binary per-pixel mask aligned to the image grid
with values in 0/1; it is embedded as a float-valued grid, so `ToTensor`
does not rescale it. -/
def maskTens (g : GridData) : Tens :=
  ⟨1, g.h, g.w, fun _ y x => g.px y x, false⟩

/-- Horizontal flip of a tensor (albumentations `HorizontalFlip`): column `x`
takes the value of column `w - 1 - x`. -/
def hflip (t : Tens) : Tens :=
  { t with px := fun c y x => t.px c y (t.w - 1 - x) }

/-- One albumentations transform of the `A.Compose` built by
`augmentation_params()` in `train.py` (a `HorizontalFlip` with probability
`p = 0.5`). -/
inductive AugTransform where
  | horizontalFlip (p : ℚ) : AugTransform

/-- The `A.Compose` returned by `augmentation_params()`:
`[A.HorizontalFlip(p=0.5)]`. -/
def augmentation_compose : List AugTransform :=
  [.horizontalFlip (1/2)]

/-- Apply one stochastic transform given its uniform-[0,1) random draw `r`:
a `HorizontalFlip(p)` fires exactly when `r < p`, and flips image and mask
jointly. -/
def applyAugT (r : ℚ) : AugTransform → Tens × Tens → Tens × Tens
  | .horizontalFlip p, (img, mask) =>
      if r < p then (hflip img, hflip mask) else (img, mask)

/-- Apply a transform list left to right, drawing transform `i`'s randomness
from `rs i`. -/
def applyComposeAux (rs : Nat → ℚ) : List AugTransform → Nat → Tens × Tens → Tens × Tens
  | [], _, p => p
  | t :: ts, i, p => applyComposeAux rs ts (i + 1) (applyAugT (rs i) t p)

/-- Apply an albumentations `Compose` to an (image, mask) pair. -/
def applyCompose (ts : List AugTransform) (rs : Nat → ℚ) (p : Tens × Tens) : Tens × Tens :=
  applyComposeAux rs ts 0 p

/-- Normalization statistics dictionary passed as `transform_params`
(from `smp.encoders.get_preprocessing_params`): per-channel `mean` and
`std`. -/
structure TransformParams where
  mean : List ℚ
  std : List ℚ

/-- One torchvision transform step as listed in the two
`transforms.Compose([...])` calls of `Dataset.__getitem__`. -/
inductive TStep where
  | toTensor : TStep
  | resize (size : Nat × Nat) (interpolation : Nat) : TStep
  | normalize (mean std : List ℚ) : TStep
deriving DecidableEq

/-- Nearest-neighbor source index for output position `i` when resizing a
length-`srcLen` axis to length `outLen`. -/
def nnIdx (i srcLen outLen : Nat) : Nat :=
  i * srcLen / outLen

/-- Resize with `interpolation=0` (nearest): every output pixel is a copy of
some input pixel. -/
def resizeNearest (size : Nat × Nat) (t : Tens) : Tens :=
  ⟨t.channels, size.1, size.2,
    fun c i j => t.px c (nnIdx i t.h size.1) (nnIdx j t.w size.2),
    t.isByte⟩

/-- Continuous source coordinate of output position `i` under center-aligned
resampling. -/
def srcPos (i srcLen outLen : Nat) : ℚ :=
  (i + 1/2) * srcLen / outLen - 1/2

/-- Clamp an integer coordinate into `[0, len - 1]`. -/
def clampIdx (z : Int) (len : Nat) : Nat :=
  min z.toNat (len - 1)

/-- Resize with a smooth kernel (`interpolation=2`, bilinear): each output
pixel is a convex combination of the four neighbouring input pixels around
its center-aligned source position, with edge clamping. -/
def bilinearPx (t : Tens) (outH outW : Nat) (c i j : Nat) : ℚ :=
  let sy := srcPos i t.h outH
  let sx := srcPos j t.w outW
  let y0 := clampIdx ⌊sy⌋ t.h
  let y1 := clampIdx (⌊sy⌋ + 1) t.h
  let x0 := clampIdx ⌊sx⌋ t.w
  let x1 := clampIdx (⌊sx⌋ + 1) t.w
  let wy := sy - ⌊sy⌋
  let wx := sx - ⌊sx⌋
  (1 - wy) * ((1 - wx) * t.px c y0 x0 + wx * t.px c y0 x1) +
    wy * ((1 - wx) * t.px c y1 x0 + wx * t.px c y1 x1)

/-- Resize with `interpolation=2` (bilinear). -/
def resizeBilinear (size : Nat × Nat) (t : Tens) : Tens :=
  ⟨t.channels, size.1, size.2, fun c i j => bilinearPx t size.1 size.2 c i j, t.isByte⟩

/-- Semantics of one torchvision transform step.  `ToTensor` scales 8-bit
arrays by 1/255 and leaves float arrays unscaled; `Resize` dispatches on the
interpolation constant (0 = nearest, otherwise the smooth bilinear kernel);
`Normalize` subtracts the per-channel mean and divides by the per-channel
standard deviation. -/
def applyStep : TStep → Tens → Tens
  | .toTensor, t =>
      ⟨t.channels, t.h, t.w,
        fun c y x => if t.isByte then t.px c y x / 255 else t.px c y x, false⟩
  | .resize size interpolation, t =>
      if interpolation = 0 then resizeNearest size t else resizeBilinear size t
  | .normalize mean std, t =>
      { t with px := fun c y x => (t.px c y x - mean.getD c 0) / std.getD c 1 }

/-- Apply a `transforms.Compose` step list left to right. -/
def applySteps (steps : List TStep) (t : Tens) : Tens :=
  steps.foldl (fun t s => applyStep s t) t

/-- The `preprocess_image` pipeline of `Dataset.__getitem__`:
`Compose([ToTensor(), Resize(size=input_size, interpolation=2),
Normalize(mean, std)])`. -/
def preprocess_image_steps (input_size : Nat × Nat) (tp : TransformParams) : List TStep :=
  [.toTensor, .resize input_size 2, .normalize tp.mean tp.std]

/-- The `preprocess_mask` pipeline of `Dataset.__getitem__`:
`Compose([ToTensor(), Resize(size=input_size, interpolation=0)])`. -/
def preprocess_mask_steps (input_size : Nat × Nat) : List TStep :=
  [.toTensor, .resize input_size 0]

/-- `preprocess_image(image)` in `Dataset.__getitem__`. -/
def preprocess_image (input_size : Nat × Nat) (tp : TransformParams) (t : Tens) : Tens :=
  applySteps (preprocess_image_steps input_size tp) t

/-- `preprocess_mask(mask)` in `Dataset.__getitem__`. -/
def preprocess_mask (input_size : Nat × Nat) (t : Tens) : Tens :=
  applySteps (preprocess_mask_steps input_size) t

/-- The `Dataset` state after `__init__`: the path lists produced by
`read_supervisely_project` and the stored configuration fields. -/
structure Dataset where
  image_paths : List String
  ann_paths : List String
  class_name : String
  input_size : Nat × Nat
  augmentation_params : Option (List AugTransform)
  transform_params : Option TransformParams

/-- `Dataset.__len__`: the number of image paths. -/
def Dataset.length (ds : Dataset) : Nat :=
  ds.image_paths.length

/-- External collaborators consumed by the script: file reads and the
Supervisely helpers.  Modelled from the spec: `read_supervisely_project`
and `convert_ann_to_mask` live in `tools/supervisely_tools.py`, which is not
under `src/`; the spec describes them as a pure sample index (paired
image/annotation path lists) and a pure binary-mask decoder aligned to the
image grid. -/
structure Env where
  imread : String → ImageData
  read_supervisely : String → Option (List String) → Option (List String) →
    List String × List String
  convert_ann_to_mask : String → String → GridData

/-- `Dataset.__getitem__` with the object's state threaded explicitly:
index both path lists (Python semantics), read and color-convert the image,
decode the mask, apply augmentation when `augmentation_params` is set,
apply the two preprocessing pipelines when `transform_params` is set, and
return the pair together with the (never mutated) dataset state.  `rs`
supplies the per-transform augmentation randomness. -/
def getitemFull (env : Env) (self : Dataset) (idx : Int) (rs : Nat → ℚ) :
    Except PyErr (Tens × Tens) × Dataset :=
  match pyIndex self.image_paths idx with
  | .error e => (.error e, self)
  | .ok image_path =>
    match pyIndex self.ann_paths idx with
    | .error e => (.error e, self)
    | .ok ann_path =>
      let image := cvtColorBGR2RGB (imreadTens (env.imread image_path))
      let mask := maskTens (env.convert_ann_to_mask ann_path self.class_name)
      let augmented :=
        match self.augmentation_params with
        | some aug => applyCompose aug rs (image, mask)
        | none => (image, mask)
      match self.transform_params with
      | some tp =>
          (.ok (preprocess_image self.input_size tp augmented.1,
                preprocess_mask self.input_size augmented.2), self)
      | none => (.ok (augmented.1, augmented.2), self)

/-- The value returned by `Dataset.__getitem__`. -/
def getitem (env : Env) (self : Dataset) (idx : Int) (rs : Nat → ℚ) :
    Except PyErr (Tens × Tens) :=
  (getitemFull env self idx rs).1

/-- `os.path.join` for the relative two-component joins the script performs. -/
def joinPath (a b : String) : String :=
  a ++ "/" ++ b

/-- Configuration captured by `Model.__init__`, with the script's default
values. -/
structure ModelCfg where
  dataset_dir : String := "dataset/covid_segmentation"
  included_datasets : Option (List String) := none
  excluded_datasets : Option (List String) := none
  model_name : String := "Unet"
  encoder_name : String := "resnet18"
  encoder_weights : String := "imagenet"
  batch_size : Nat := 4
  input_size : Nat × Nat := (512, 512)
  in_channels : Nat := 3
  classes : Nat := 1
  activation : String := "sigmoid"
  class_name : String := "COVID-19"
  save_dir : String := "models"

/-- `Model.device_selection`: picks `"cuda"` when available, else `"cpu"`,
and asserts `batch_size % n == 0` when the GPU count `n` exceeds 1 and
`batch_size` is truthy (non-zero).  The failed `assert` raises
`AssertionError` with the script's formatted message. -/
def device_selection (cfg : ModelCfg) (cuda_available : Bool) (device_count : Nat) :
    Except PyErr String :=
  let device := if cuda_available then "cuda" else "cpu"
  if device_count > 1 ∧ cfg.batch_size ≠ 0 ∧ cfg.batch_size % device_count ≠ 0 then
    .error (.assertionError
      ("batch size " ++ toString cfg.batch_size ++
        " does not multiple of GPU count " ++ toString device_count))
  else
    .ok device

/-- The object state a successful `Model.__init__` produces. -/
structure ModelState where
  cfg : ModelCfg
  device : String
  model_dir : String

/-- `Model.__init__`: stores the configuration, runs `device_selection`
(whose assertion can abort construction), and derives the run directory
`save_dir/{model}_{encoder}_{weights}_{run_time}`. -/
def modelInit (cfg : ModelCfg) (cuda_available : Bool) (device_count : Nat)
    (run_time : String) : Except PyErr ModelState :=
  match device_selection cfg cuda_available device_count with
  | .error e => .error e
  | .ok device =>
      .ok ⟨cfg, device,
        joinPath cfg.save_dir
          (cfg.model_name ++ "_" ++ cfg.encoder_name ++ "_" ++
            cfg.encoder_weights ++ "_" ++ run_time)⟩

/-- Constructor arguments the script forwards to every
`segmentation_models_pytorch` architecture. -/
structure SmpArgs where
  encoder_name : String
  encoder_weights : String
  in_channels : Nat
  classes : Nat
  activation : String
deriving DecidableEq

/-- A constructed `segmentation_models_pytorch` model, tagged by the
architecture class the dispatch selected. -/
inductive SmpModel where
  | Unet (args : SmpArgs) : SmpModel
  | UnetPlusPlus (args : SmpArgs) : SmpModel
  | DeepLabV3 (args : SmpArgs) : SmpModel
  | DeepLabV3Plus (args : SmpArgs) : SmpModel
  | FPN (args : SmpArgs) : SmpModel
  | Linknet (args : SmpArgs) : SmpModel
  | PSPNet (args : SmpArgs) : SmpModel
deriving DecidableEq

/-- The argument record `Model._get_model` passes to every constructor. -/
def smpArgsOf (cfg : ModelCfg) : SmpArgs :=
  ⟨cfg.encoder_name, cfg.encoder_weights, cfg.in_channels, cfg.classes, cfg.activation⟩

/-- `Model._get_model`: string dispatch over the architecture name; an
unknown name raises `ValueError('Unknown model name:'.format(self.model_name))`.
The format string has no placeholder, so `.format` returns it unchanged and
the message is exactly `"Unknown model name:"`. -/
def get_model (cfg : ModelCfg) : Except PyErr SmpModel :=
  if cfg.model_name = "Unet" then .ok (.Unet (smpArgsOf cfg))
  else if cfg.model_name = "Unet++" then .ok (.UnetPlusPlus (smpArgsOf cfg))
  else if cfg.model_name = "DeepLabV3" then .ok (.DeepLabV3 (smpArgsOf cfg))
  else if cfg.model_name = "DeepLabV3+" then .ok (.DeepLabV3Plus (smpArgsOf cfg))
  else if cfg.model_name = "FPN" then .ok (.FPN (smpArgsOf cfg))
  else if cfg.model_name = "Linknet" then .ok (.Linknet (smpArgsOf cfg))
  else if cfg.model_name = "PSPNet" then .ok (.PSPNet (smpArgsOf cfg))
  else .error (.valueError "Unknown model name:")

/-- The architecture names `Model._get_model` recognizes. -/
def recognizedNames : List String :=
  ["Unet", "Unet++", "DeepLabV3", "DeepLabV3+", "FPN", "Linknet", "PSPNet"]

/-- The validation dataset `Model.train` builds (lines 238-244 of
`train.py`): the `Figure1-COVID-chestxray-dataset` sub-dataset, no
augmentation, and the encoder's preprocessing statistics as
`transform_params`. -/
def val_ds (env : Env) (cfg : ModelCfg) (preprocessing_params : TransformParams) : Dataset :=
  let paths := env.read_supervisely cfg.dataset_dir
    (some ["Figure1-COVID-chestxray-dataset"]) cfg.excluded_datasets
  { image_paths := paths.1
    ann_paths := paths.2
    class_name := cfg.class_name
    input_size := cfg.input_size
    augmentation_params := none
    transform_params := some preprocessing_params }

/-- Observable state of the epoch loop in `Model.train`: the write events
(epoch index and destination path) performed by `torch.save`, the learning
rate each epoch's training pass ran with, the running best score and the
current learning rate. -/
structure TrainResult where
  writes : List (Nat × String)
  lrs : List ℚ
  max_score : ℚ
  lr : ℚ
deriving DecidableEq

/-- State entering the loop: `max_score = 0` and the Adam learning rate
`lr=0.0001` set when the optimizer is built. -/
def initTrainResult : TrainResult :=
  ⟨[], [], 0, 1/10000⟩

/-- One iteration of the `for i in range(0, 40)` loop body: the epoch trains
with the current learning rate, then `if max_score < val_logs['iou_score']`
the best score is updated and the model is saved to
`os.path.join(self.model_dir, 'best_weights.pth')`, then `if i == 25` the
learning rate is set to `1e-5`. -/
def epochStep (model_dir : String) (score : ℚ) (i : Nat) (st : TrainResult) : TrainResult :=
  let st1 := { st with lrs := st.lrs ++ [st.lr] }
  let st2 :=
    if st1.max_score < score then
      { st1 with
        max_score := score
        writes := st1.writes ++ [(i, joinPath model_dir "best_weights.pth")] }
    else st1
  if i = 25 then { st2 with lr := 1/100000 } else st2

/-- Run the first `n` epochs of the loop, feeding epoch `i` the validation
IoU score `scores i`. -/
def runEpochs (model_dir : String) (scores : Nat → ℚ) : Nat → TrainResult
  | 0 => initTrainResult
  | n + 1 => epochStep model_dir (scores n) n (runEpochs model_dir scores n)

/-- The full loop of `Model.train`: `for i in range(0, 40)`. -/
def trainLoop (model_dir : String) (scores : Nat → ℚ) : TrainResult :=
  runEpochs model_dir scores 40

/-- `Model.train` gated by construction: a `Model` whose `__init__` raised
never reaches the epoch loop, and `train` itself first calls `_get_model`,
which can raise before any epoch runs. -/
def runTraining (cfg : ModelCfg) (cuda_available : Bool) (device_count : Nat)
    (run_time : String) (scores : Nat → ℚ) : Except PyErr TrainResult :=
  match modelInit cfg cuda_available device_count run_time with
  | .error e => .error e
  | .ok st =>
      match get_model st.cfg with
      | .error e => .error e
      | .ok _ => .ok (trainLoop st.model_dir scores)

/-- The validation IoU sequence of the spec's checkpoint-persistence
scenario. -/
def simScores : Nat → ℚ :=
  fun i => [1/10, 3/10, 2/10, 5/10].getD i 0

/-- An identically-zero validation IoU sequence. -/
def zeroScores : Nat → ℚ :=
  fun _ => 0

/-- A concrete environment for counterexample evaluation: every image file
decodes to a 1×1 image of constant value 7 and every annotation to a 1×1
all-ones mask; the sample index lists one pair. -/
def env1 : Env :=
  { imread := fun _ => ⟨1, 1, fun _ _ _ => 7⟩
    read_supervisely := fun _ _ _ => (["img0"], ["ann0"])
    convert_ann_to_mask := fun _ _ => ⟨1, 1, fun _ _ => 1⟩ }

/-- A one-sample dataset with preprocessing statistics unset
(`transform_params is None`). -/
def ds_noTransform : Dataset :=
  { image_paths := ["img0"]
    ann_paths := ["ann0"]
    class_name := "COVID-19"
    input_size := (512, 512)
    augmentation_params := none
    transform_params := none }

/-- A one-sample dataset with preprocessing statistics set. -/
def ds_one : Dataset :=
  { image_paths := ["img0"]
    ann_paths := ["ann0"]
    class_name := "COVID-19"
    input_size := (2, 2)
    augmentation_params := none
    transform_params := some ⟨[0, 0, 0], [1, 1, 1]⟩ }

/-- A configuration with batch size 5 (not divisible by 2 devices). -/
def cfg5 : ModelCfg :=
  { batch_size := 5 }

/-- A configuration with an unrecognized architecture name. -/
def cfgFoo : ModelCfg :=
  { model_name := "foo" }

/-- Whether every character-list element of `pat` occurs at the head of
`s` (an executable prefix test over character lists). -/
def charsPrefixOf : List Char → List Char → Bool
  | [], _ => true
  | _ :: _, [] => false
  | a :: as, b :: bs => a = b && charsPrefixOf as bs

/-- Whether `pat` occurs as a contiguous sublist of `s`. -/
def charsContains (pat : List Char) : List Char → Bool
  | [] => charsPrefixOf pat []
  | c :: cs => charsPrefixOf pat (c :: cs) || charsContains pat cs

/-- Whether `pat` occurs as a substring of `s`. -/
def strContainsSub (s pat : String) : Bool :=
  charsContains pat.data s.data

/-- Whether an `Except` computation succeeded. -/
def exOk : Except ε α → Bool
  | .ok _ => true
  | .error _ => false

/-- Every pixel value of the tensor is 0 or 1 (the binary-mask invariant). -/
def isBinaryT (t : Tens) : Prop :=
  ∀ c y x, t.px c y x = 0 ∨ t.px c y x = 1

lemma epochStep_lr (md : String) (s : ℚ) (i : Nat) (st : TrainResult) :
    (epochStep md s i st).lr = if i = 25 then 1/100000 else st.lr := by
  unfold epochStep
  by_cases h : st.max_score < s <;> by_cases h2 : i = 25 <;> simp [h, h2]

lemma epochStep_lrs (md : String) (s : ℚ) (i : Nat) (st : TrainResult) :
    (epochStep md s i st).lrs = st.lrs ++ [st.lr] := by
  unfold epochStep
  by_cases h : st.max_score < s <;> by_cases h2 : i = 25 <;> simp [h, h2]

lemma epochStep_writes (md : String) (s : ℚ) (i : Nat) (st : TrainResult) :
    (epochStep md s i st).writes =
      st.writes ++ (if st.max_score < s then [(i, joinPath md "best_weights.pth")] else []) := by
  unfold epochStep
  by_cases h : st.max_score < s <;> by_cases h2 : i = 25 <;> simp [h, h2]

lemma epochStep_max (md : String) (s : ℚ) (i : Nat) (st : TrainResult) :
    (epochStep md s i st).max_score = if st.max_score < s then s else st.max_score := by
  unfold epochStep
  by_cases h : st.max_score < s <;> by_cases h2 : i = 25 <;> simp [h, h2]

lemma runEpochs_lr (md : String) (scores : Nat → ℚ) :
    ∀ n, (runEpochs md scores n).lr = if n ≤ 25 then 1/10000 else 1/100000 := by
  intro n
  induction n with
  | zero => simp [runEpochs, initTrainResult]
  | succ n ih =>
      rw [runEpochs, epochStep_lr, ih]
      split_ifs <;> first | rfl | omega

lemma runEpochs_lrs (md : String) (scores : Nat → ℚ) :
    ∀ n, (runEpochs md scores n).lrs =
      (List.range n).map (fun i => if i ≤ 25 then (1:ℚ)/10000 else 1/100000) := by
  intro n
  induction n with
  | zero => simp [runEpochs, initTrainResult]
  | succ n ih =>
      rw [runEpochs, epochStep_lrs, ih, runEpochs_lr, List.range_succ]
      simp

lemma runEpochs_max_nonneg (md : String) (scores : Nat → ℚ) :
    ∀ n, 0 ≤ (runEpochs md scores n).max_score := by
  intro n
  induction n with
  | zero => simp [runEpochs, initTrainResult]
  | succ n ih =>
      rw [runEpochs, epochStep_max]
      split_ifs with h
      · linarith
      · exact ih

lemma runEpochs_mem_writes (md : String) (scores : Nat → ℚ) :
    ∀ n i, (∃ p, (i, p) ∈ (runEpochs md scores n).writes) ↔
      (i < n ∧ (runEpochs md scores i).max_score < scores i) := by
  intro n
  induction n with
  | zero => intro i; simp [runEpochs, initTrainResult]
  | succ n ih =>
      intro i
      rw [runEpochs, epochStep_writes]
      constructor
      · rintro ⟨p, hp⟩
        rcases List.mem_append.mp hp with h | h
        · have h2 := (ih i).mp ⟨p, h⟩
          exact ⟨Nat.lt_succ_of_lt h2.1, h2.2⟩
        · split at h
          · rcases List.mem_singleton.mp h with h3
            have h4 : i = n := congrArg Prod.fst h3
            subst h4
            exact ⟨Nat.lt_succ_self i, by assumption⟩
          · simp at h
      · rintro ⟨hlt, hsc⟩
        rcases Nat.lt_succ_iff_lt_or_eq.mp hlt with h | h
        · obtain ⟨p, hp⟩ := (ih i).mpr ⟨h, hsc⟩
          exact ⟨p, List.mem_append.mpr (Or.inl hp)⟩
        · subst h
          refine ⟨joinPath md "best_weights.pth", List.mem_append.mpr (Or.inr ?_)⟩
          rw [if_pos hsc]
          exact List.mem_singleton.mpr rfl

lemma runEpochs_writes_path (md : String) (scores : Nat → ℚ) :
    ∀ n i p, (i, p) ∈ (runEpochs md scores n).writes → p = joinPath md "best_weights.pth" := by
  intro n
  induction n with
  | zero => intro i p hp; simp [runEpochs, initTrainResult] at hp
  | succ n ih =>
      intro i p hp
      rw [runEpochs, epochStep_writes] at hp
      rcases List.mem_append.mp hp with h | h
      · exact ih i p h
      · split at h
        · exact congrArg Prod.snd (List.mem_singleton.mp h)
        · simp at h

lemma runEpochs_writes_pos (md : String) (scores : Nat → ℚ) (n i : Nat) (p : String)
    (h : (i, p) ∈ (runEpochs md scores n).writes) : 0 < scores i := by
  have h2 := ((runEpochs_mem_writes md scores n i).mp ⟨p, h⟩).2
  have h3 := runEpochs_max_nonneg md scores i
  linarith

lemma runEpochs_writes_nil (md : String) (scores : Nat → ℚ) (n : Nat)
    (h : ∀ i, scores i ≤ 0) : (runEpochs md scores n).writes = [] := by
  rcases hW : (runEpochs md scores n).writes with _ | ⟨⟨i, p⟩, rest⟩
  · rfl
  · have hm : (i, p) ∈ (runEpochs md scores n).writes := by
      rw [hW]; exact List.mem_cons_self _ _
    have := runEpochs_writes_pos md scores n i p hm
    have := h i
    linarith

lemma range_map_getD (f : Nat → ℚ) (n i : Nat) (h : i < n) :
    ((List.range n).map f).getD i 0 = f i := by
  rw [List.getD_eq_getElem?_getD, List.getElem?_map, List.getElem?_range h]
  rfl

/-- C7: the loop `for i in range(0, 40)` runs exactly 40 epochs with no early
stopping (one learning rate recorded per epoch); the learning rate starts at
`1e-4`, every epoch up to and including epoch 25 trains at `1e-4`, every
later epoch trains at `1e-5` (a single 10× step-down at the epoch-25
boundary that never reverts). -/
theorem claim_C7_lr_schedule (md : String) (scores : Nat → ℚ) :
    (trainLoop md scores).lrs.length = 40 ∧
    (∀ i, i < 40 → (trainLoop md scores).lrs.getD i 0 =
      if i ≤ 25 then 1/10000 else 1/100000) ∧
    (1:ℚ)/10000 = 10 * (1/100000) := by
  refine ⟨?_, ?_, by norm_num⟩
  · rw [trainLoop, runEpochs_lrs]
    simp
  · intro i hi
    rw [trainLoop, runEpochs_lrs, range_map_getD _ _ _ hi]

/-- C7 witness: at the concrete run with identically-zero scores, 40 learning
rates are recorded and epoch 26 trains at the decayed rate `1e-5`. -/
theorem claim_C7_lr_schedule_witness :
    (trainLoop "m" zeroScores).lrs.length = 40 ∧
    (trainLoop "m" zeroScores).lrs.getD 26 0 = 1/100000 := by
  refine ⟨(claim_C7_lr_schedule "m" zeroScores).1, ?_⟩
  have h := (claim_C7_lr_schedule "m" zeroScores).2.1 26 (by norm_num)
  simpa using h

/-- C10: the best-score tracker starts at 0 and checkpointing compares with
strict `<`, so every checkpoint write happens at an epoch whose validation
IoU is strictly positive, and a run whose scores are all `≤ 0` writes no
checkpoint at all. -/
theorem claim_C10_zero_scores (md : String) (scores : Nat → ℚ) (n : Nat) :
    (∀ i p, (i, p) ∈ (runEpochs md scores n).writes → 0 < scores i) ∧
    ((∀ i, scores i ≤ 0) → (runEpochs md scores n).writes = []) :=
  ⟨fun i p h => runEpochs_writes_pos md scores n i p h,
   fun h => runEpochs_writes_nil md scores n h⟩

/-- C10 witness: the identically-zero IoU run over the full 40 epochs writes
no checkpoint. -/
theorem claim_C10_zero_scores_witness :
    (runEpochs "m" zeroScores 40).writes = [] :=
  (claim_C10_zero_scores "m" zeroScores 40).2 (fun _ => le_refl 0)

lemma sim_states (md : String) :
    (runEpochs md simScores 1).max_score = 1/10 ∧
    (runEpochs md simScores 2).max_score = 3/10 ∧
    (runEpochs md simScores 3).max_score = 3/10 ∧
    (runEpochs md simScores 1).writes = [(0, joinPath md "best_weights.pth")] ∧
    (runEpochs md simScores 2).writes =
      [(0, joinPath md "best_weights.pth"), (1, joinPath md "best_weights.pth")] ∧
    (runEpochs md simScores 3).writes =
      [(0, joinPath md "best_weights.pth"), (1, joinPath md "best_weights.pth")] := by
  have s0 : simScores 0 = 1/10 := rfl
  have s1 : simScores 1 = 3/10 := rfl
  have s2 : simScores 2 = 2/10 := rfl
  have e1 : runEpochs md simScores 1 = epochStep md (simScores 0) 0 (runEpochs md simScores 0) := rfl
  have e2 : runEpochs md simScores 2 = epochStep md (simScores 1) 1 (runEpochs md simScores 1) := rfl
  have e3 : runEpochs md simScores 3 = epochStep md (simScores 2) 2 (runEpochs md simScores 2) := rfl
  have m0 : (runEpochs md simScores 0).max_score = 0 := rfl
  have w0 : (runEpochs md simScores 0).writes = [] := rfl
  have m1 : (runEpochs md simScores 1).max_score = 1/10 := by
    rw [e1, epochStep_max, m0, s0]; norm_num
  have w1 : (runEpochs md simScores 1).writes = [(0, joinPath md "best_weights.pth")] := by
    rw [e1, epochStep_writes, m0, w0, s0]; norm_num
  have m2 : (runEpochs md simScores 2).max_score = 3/10 := by
    rw [e2, epochStep_max, m1, s1]; norm_num
  have w2 : (runEpochs md simScores 2).writes =
      [(0, joinPath md "best_weights.pth"), (1, joinPath md "best_weights.pth")] := by
    rw [e2, epochStep_writes, m1, w1, s1]; norm_num
  have m3 : (runEpochs md simScores 3).max_score = 3/10 := by
    rw [e3, epochStep_max, m2, s2]; norm_num
  have w3 : (runEpochs md simScores 3).writes =
      [(0, joinPath md "best_weights.pth"), (1, joinPath md "best_weights.pth")] := by
    rw [e3, epochStep_writes, m2, w2, s2]; norm_num
  exact ⟨m1, m2, m3, w1, w2, w3⟩

lemma sim_writes_4 (md : String) :
    (runEpochs md simScores 4).writes =
      [(0, joinPath md "best_weights.pth"), (1, joinPath md "best_weights.pth"),
       (3, joinPath md "best_weights.pth")] := by
  have s3 : simScores 3 = 5/10 := rfl
  have e4 : runEpochs md simScores 4 = epochStep md (simScores 3) 3 (runEpochs md simScores 3) := rfl
  obtain ⟨-, -, m3, -, -, w3⟩ := sim_states md
  rw [e4, epochStep_writes, m3, w3, s3]
  norm_num

/-- C2 counterexample: simulating the validation IoU sequence
`[0.1, 0.3, 0.2, 0.5]` over 4 epochs produces three checkpoint-write events
(epochs 1, 2 and 4 in one-based counting), not the two the claim states:
`0.3 > 0.1` already improves on the best score seen so far. -/
theorem claim_C2_counterexample :
    (runEpochs "models/run" simScores 4).writes.length = 3 ∧
    ¬ (runEpochs "models/run" simScores 4).writes.length = 2 := by
  rw [sim_writes_4]
  exact ⟨rfl, by norm_num⟩

/-- C2 amended: a checkpoint is written exactly when the epoch's validation
IoU strictly exceeds the best score seen so far (tracker initialized to 0),
every write goes to `model_dir/best_weights.pth`, and for the IoU sequence
`[0.1, 0.3, 0.2, 0.5]` over 4 epochs exactly three write events occur, at
zero-based epochs 0, 1 and 3. -/
theorem claim_C2_checkpointing (md : String) (scores : Nat → ℚ) (n i : Nat) :
    ((∃ p, (i, p) ∈ (runEpochs md scores n).writes) ↔
      (i < n ∧ (runEpochs md scores i).max_score < scores i)) ∧
    (∀ j p, (j, p) ∈ (runEpochs md scores n).writes →
      p = joinPath md "best_weights.pth") ∧
    (runEpochs md simScores 4).writes =
      [(0, joinPath md "best_weights.pth"), (1, joinPath md "best_weights.pth"),
       (3, joinPath md "best_weights.pth")] := by
  exact ⟨runEpochs_mem_writes md scores n i,
    fun j p h => runEpochs_writes_path md scores n j p h, sim_writes_4 md⟩

/-- C2 amended witness: at the concrete simulated run, epoch 3 has a write
event and the full write list is the three-element list of the amended
claim. -/
theorem claim_C2_checkpointing_witness :
    (∃ p, (3, p) ∈ (runEpochs "m" simScores 4).writes) ∧
    (runEpochs "m" simScores 4).writes =
      [(0, joinPath "m" "best_weights.pth"), (1, joinPath "m" "best_weights.pth"),
       (3, joinPath "m" "best_weights.pth")] :=
  ⟨(claim_C2_checkpointing "m" simScores 4 3).1.mpr
      ⟨by norm_num, by rw [(sim_states "m").2.2.1, show simScores 3 = 5/10 from rfl]; norm_num⟩,
   (claim_C2_checkpointing "m" simScores 4 3).2.2⟩

/-- C5: when more than one accelerator device is present, `Model` construction
validates divisibility of the batch size by the device count eagerly
(inside `__init__`, before `train` and hence before any epoch): a violating
batch size aborts the whole run with the assertion error (the startup
configuration failure of the spec's taxonomy) carrying the script's message,
and otherwise `__init__` succeeds with no constraint on the batch size. -/
theorem claim_C5_batch_divisibility (cfg : ModelCfg) (cuda : Bool) (n : Nat)
    (rt : String) (scores : Nat → ℚ) :
    (1 < n ∧ cfg.batch_size % n ≠ 0 →
      runTraining cfg cuda n rt scores =
        .error (.assertionError ("batch size " ++ toString cfg.batch_size ++
          " does not multiple of GPU count " ++ toString n))) ∧
    (¬ (1 < n ∧ cfg.batch_size % n ≠ 0) →
      ∃ st, modelInit cfg cuda n rt = .ok st) := by
  constructor
  · rintro ⟨h1, h2⟩
    have h0 : cfg.batch_size ≠ 0 := by
      intro h; rw [h] at h2; simp at h2
    rw [runTraining, modelInit, device_selection]
    rw [if_pos ⟨h1, h0, h2⟩]
  · intro h
    rw [modelInit, device_selection]
    have hcond : ¬ (n > 1 ∧ cfg.batch_size ≠ 0 ∧ cfg.batch_size % n ≠ 0) := by
      intro hc
      exact h ⟨hc.1, hc.2.2⟩
    rw [if_neg hcond]
    exact ⟨_, rfl⟩

/-- C5 witness: batch size 5 on 2 devices aborts construction with the
formatted assertion message; batch size 4 on 2 devices constructs fine. -/
theorem claim_C5_batch_divisibility_witness :
    ((1 < 2 ∧ cfg5.batch_size % 2 ≠ 0) ∧
      runTraining cfg5 false 2 "t" zeroScores =
        .error (.assertionError ("batch size " ++ toString cfg5.batch_size ++
          " does not multiple of GPU count " ++ toString 2))) ∧
    (∃ st, modelInit { } false 2 "t" = .ok st) :=
  ⟨⟨⟨by norm_num, by decide⟩,
    (claim_C5_batch_divisibility cfg5 false 2 "t" zeroScores).1 ⟨by norm_num, by decide⟩⟩,
   (claim_C5_batch_divisibility { } false 2 "t" zeroScores).2 (by decide)⟩

lemma pyIndex_error (xs : List α) (i : Int)
    (h : (xs.length : Int) ≤ i ∨ i < -(xs.length : Int)) :
    pyIndex xs i = .error .indexError := by
  rw [pyIndex]
  split <;> split
  · exfalso; rename_i hneg hc; rcases h with h | h <;> omega
  · rfl
  · exfalso; rename_i hneg hc; rcases h with h | h <;> omega
  · rfl

lemma pyIndex_ok (xs : List α) (i : Int)
    (h1 : -(xs.length : Int) ≤ i) (h2 : i < xs.length) :
    ∃ a, pyIndex xs i = .ok a := by
  rw [pyIndex]
  split <;> split
  · exact ⟨_, rfl⟩
  · exfalso; rename_i hneg hc; exact hc ⟨by omega, by omega⟩
  · exact ⟨_, rfl⟩
  · exfalso; rename_i hneg hc; exact hc ⟨by omega, by omega⟩

/-- C6 counterexample: on a one-sample dataset, the out-of-`[0, length)`
index `-1` does not fail: Python list indexing wraps negative indices, so
`__getitem__(-1)` returns a pair. -/
theorem claim_C6_counterexample :
    ((-1 : Int) < 0 ∨ (ds_one.length : Int) ≤ (-1 : Int)) ∧
    exOk (getitem env1 ds_one (-1) zeroScores) = true := by
  constructor
  · left
    norm_num
  · rfl

/-- C6 amended: indices with `idx ≥ length` or `idx < -length` fail with
`IndexError` and never yield a tensor pair; all indices in
`[-length, length)` — in particular the whole claimed range `[0, length)` —
return a pair, with negative indices following Python's wrap-around instead
of failing. -/
theorem claim_C6_index_bounds (env : Env) (ds : Dataset) (idx : Int) (rs : Nat → ℚ)
    (hlen : ds.ann_paths.length = ds.image_paths.length) :
    (((ds.length : Int) ≤ idx ∨ idx < -(ds.length : Int)) →
      getitem env ds idx rs = .error .indexError) ∧
    ((-(ds.length : Int) ≤ idx ∧ idx < (ds.length : Int)) →
      exOk (getitem env ds idx rs) = true) := by
  constructor
  · intro h
    have h1 : pyIndex ds.image_paths idx = .error .indexError :=
      pyIndex_error _ _ h
    simp only [getitem, getitemFull, h1]
  · rintro ⟨h1, h2⟩
    obtain ⟨ip, hip⟩ := pyIndex_ok ds.image_paths idx h1 h2
    obtain ⟨ap, hap⟩ := pyIndex_ok ds.ann_paths idx (by rw [hlen]; exact h1)
      (by rw [hlen]; exact h2)
    simp only [getitem, getitemFull, hip, hap]
    cases htp : ds.transform_params <;> simp [htp, exOk]

/-- C6 amended witness: on the one-sample dataset, index 1 (= length) fails
with `IndexError` while index 0 returns a pair. -/
theorem claim_C6_index_bounds_witness :
    getitem env1 ds_one 1 zeroScores = .error .indexError ∧
    exOk (getitem env1 ds_one 0 zeroScores) = true :=
  ⟨(claim_C6_index_bounds env1 ds_one 1 zeroScores rfl).1 (by norm_num [Dataset.length, ds_one]),
   (claim_C6_index_bounds env1 ds_one 0 zeroScores rfl).2
     (by norm_num [Dataset.length, ds_one])⟩

/-- C9: `__getitem__` never mutates the dataset object: the threaded state
it returns is the state it was given, every field included. -/
theorem claim_C9_getitem_pure (env : Env) (ds : Dataset) (idx : Int) (rs : Nat → ℚ) :
    (getitemFull env ds idx rs).2 = ds := by
  rw [getitemFull]
  cases h1 : pyIndex ds.image_paths idx with
  | error e => rfl
  | ok ip =>
      cases h2 : pyIndex ds.ann_paths idx with
      | error e => rfl
      | ok ap =>
          cases htp : ds.transform_params <;> simp [htp]

/-- C8: the validation dataset `Model.train` builds has augmentation unset,
so `__getitem__` ignores the stochastic input entirely: two calls at the
same index under any two random draws return identical results. -/
theorem claim_C8_val_deterministic (env : Env) (cfg : ModelCfg) (pp : TransformParams)
    (idx : Int) (rs1 rs2 : Nat → ℚ) :
    getitem env (val_ds env cfg pp) idx rs1 = getitem env (val_ds env cfg pp) idx rs2 := by
  rfl

lemma applyAugT_fst_isByte (r : ℚ) (t : AugTransform) (p : Tens × Tens) :
    ((applyAugT r t p).1).isByte = p.1.isByte := by
  rcases t with ⟨pr⟩
  rcases p with ⟨a, b⟩
  rw [applyAugT]
  split <;> rfl

lemma applyComposeAux_fst_isByte (rs : Nat → ℚ) :
    ∀ (ts : List AugTransform) (i : Nat) (p : Tens × Tens),
      ((applyComposeAux rs ts i p).1).isByte = p.1.isByte := by
  intro ts
  induction ts with
  | nil => intro i p; rfl
  | cons t ts ih =>
      intro i p
      rw [applyComposeAux, ih, applyAugT_fst_isByte]

lemma applyCompose_fst_isByte (ts : List AugTransform) (rs : Nat → ℚ) (p : Tens × Tens) :
    ((applyCompose ts rs p).1).isByte = p.1.isByte :=
  applyComposeAux_fst_isByte rs ts 0 p

/-- C1 counterexample: with `transform_params` unset on a one-sample dataset,
`__getitem__(0)` raises nothing: it succeeds, and the image it returns is
still the raw 8-bit array (normalization was silently skipped). -/
theorem claim_C1_counterexample :
    exOk (getitem env1 ds_noTransform 0 zeroScores) = true ∧
    (getitem env1 ds_noTransform 0 zeroScores).toOption.map (fun pr => pr.1.isByte) =
      some true := by
  constructor
  · rfl
  · rfl

/-- C1 amended: when the preprocessing statistics (`transform_params`) are
unset, `__getitem__` does not fail fast: for every in-range index it
silently skips the whole preprocessing step and returns the raw (possibly
augmented) pair, the image still in its unnormalized 8-bit form. -/
theorem claim_C1_missing_stats (env : Env) (ds : Dataset) (idx : Int) (rs : Nat → ℚ)
    (htp : ds.transform_params = none)
    (hlen : ds.ann_paths.length = ds.image_paths.length)
    (h1 : -(ds.length : Int) ≤ idx) (h2 : idx < (ds.length : Int)) :
    ∃ img mask, getitem env ds idx rs = .ok (img, mask) ∧ img.isByte = true := by
  obtain ⟨ip, hip⟩ := pyIndex_ok ds.image_paths idx h1 h2
  obtain ⟨ap, hap⟩ := pyIndex_ok ds.ann_paths idx (by rw [hlen]; exact h1)
    (by rw [hlen]; exact h2)
  simp only [getitem, getitemFull, hip, hap, htp]
  cases haug : ds.augmentation_params with
  | none => exact ⟨_, _, rfl, rfl⟩
  | some aug =>
      refine ⟨_, _, rfl, ?_⟩
      rw [applyCompose_fst_isByte]
      rfl

/-- C1 amended witness: the concrete no-statistics dataset at index 0
returns a raw byte-image pair. -/
theorem claim_C1_missing_stats_witness :
    ∃ img mask, getitem env1 ds_noTransform 0 zeroScores = .ok (img, mask) ∧
      img.isByte = true :=
  claim_C1_missing_stats env1 ds_noTransform 0 zeroScores rfl rfl
    (by norm_num [Dataset.length, ds_noTransform])
    (by norm_num [Dataset.length, ds_noTransform])

lemma applyAugT_snd_inv (r : ℚ) (t : AugTransform) (p : Tens × Tens)
    (h : isBinaryT p.2 ∧ p.2.isByte = false) :
    isBinaryT (applyAugT r t p).2 ∧ (applyAugT r t p).2.isByte = false := by
  rcases t with ⟨pr⟩
  rcases p with ⟨a, b⟩
  rw [applyAugT]
  split
  · exact ⟨fun c y x => h.1 c y _, h.2⟩
  · exact h

lemma applyComposeAux_snd_inv (rs : Nat → ℚ) :
    ∀ (ts : List AugTransform) (i : Nat) (p : Tens × Tens),
      isBinaryT p.2 ∧ p.2.isByte = false →
      isBinaryT (applyComposeAux rs ts i p).2 ∧
        (applyComposeAux rs ts i p).2.isByte = false := by
  intro ts
  induction ts with
  | nil => intro i p h; exact h
  | cons t ts ih =>
      intro i p h
      rw [applyComposeAux]
      exact ih _ _ (applyAugT_snd_inv _ _ _ h)

lemma applyCompose_snd_inv (ts : List AugTransform) (rs : Nat → ℚ) (p : Tens × Tens)
    (h : isBinaryT p.2 ∧ p.2.isByte = false) :
    isBinaryT (applyCompose ts rs p).2 ∧ (applyCompose ts rs p).2.isByte = false :=
  applyComposeAux_snd_inv rs ts 0 p h

lemma preprocess_mask_binary (sz : Nat × Nat) (t : Tens)
    (hb : isBinaryT t) (hf : t.isByte = false) :
    isBinaryT (preprocess_mask sz t) := by
  intro c y x
  have hpx : (preprocess_mask sz t).px c y x =
      (if t.isByte = true then t.px c (nnIdx y t.h sz.1) (nnIdx x t.w sz.2) / 255
       else t.px c (nnIdx y t.h sz.1) (nnIdx x t.w sz.2)) := rfl
  rw [hpx, hf]
  simp only [Bool.false_eq_true, if_false]
  exact hb c _ _

/-- C3: in the preprocessing of `__getitem__`, the image pipeline resizes
with the smooth bilinear kernel (`interpolation=2`) and normalizes per
channel by subtracting `mean` and dividing by `std`, while the mask pipeline
is exactly `[ToTensor, Resize(interpolation=0)]` — nearest-neighbor, with no
normalization step — so a binary decoded mask yields a mask tensor whose
values all stay in the set reachable by nearest-neighbor resampling of
\x7b0,1\x7d, namely \x7b0,1\x7d itself. -/
theorem claim_C3_kernels (env : Env) (ds : Dataset) (idx : Int) (rs : Nat → ℚ)
    (tp : TransformParams)
    (htp : ds.transform_params = some tp)
    (hmask : ∀ a cn y x, (env.convert_ann_to_mask a cn).px y x = 0 ∨
      (env.convert_ann_to_mask a cn).px y x = 1) :
    (TStep.resize ds.input_size 2 ∈ preprocess_image_steps ds.input_size tp ∧
      (∀ t, applyStep (TStep.resize ds.input_size 2) t = resizeBilinear ds.input_size t)) ∧
    (TStep.normalize tp.mean tp.std ∈ preprocess_image_steps ds.input_size tp ∧
      (∀ t c y x, (applyStep (TStep.normalize tp.mean tp.std) t).px c y x =
        (t.px c y x - tp.mean.getD c 0) / tp.std.getD c 1)) ∧
    (preprocess_mask_steps ds.input_size = [TStep.toTensor, TStep.resize ds.input_size 0] ∧
      (∀ t, applyStep (TStep.resize ds.input_size 0) t = resizeNearest ds.input_size t) ∧
      (∀ m s, TStep.normalize m s ∉ preprocess_mask_steps ds.input_size)) ∧
    (∀ img mask, getitem env ds idx rs = .ok (img, mask) → isBinaryT mask) := by
  refine ⟨⟨by simp [preprocess_image_steps], fun t => rfl⟩,
    ⟨by simp [preprocess_image_steps], fun t c y x => rfl⟩,
    ⟨rfl, fun t => rfl, by intro m s hmem; simp [preprocess_mask_steps] at hmem⟩, ?_⟩
  intro img mask heq
  cases h1 : pyIndex ds.image_paths idx with
  | error e =>
      simp only [getitem, getitemFull, h1] at heq
      exact Except.noConfusion heq
  | ok ip =>
    cases h2 : pyIndex ds.ann_paths idx with
    | error e =>
        simp only [getitem, getitemFull, h1, h2] at heq
        exact Except.noConfusion heq
    | ok ap =>
      simp only [getitem, getitemFull, h1, h2, htp] at heq
      cases haug : ds.augmentation_params with
      | none =>
          rw [haug] at heq
          simp only [Except.ok.injEq, Prod.mk.injEq] at heq
          obtain ⟨-, hm⟩ := heq
          rw [← hm]
          exact preprocess_mask_binary _ _ (fun c y x => hmask ap ds.class_name y x) rfl
      | some aug =>
          rw [haug] at heq
          simp only [Except.ok.injEq, Prod.mk.injEq] at heq
          obtain ⟨-, hm⟩ := heq
          rw [← hm]
          have hinv := applyCompose_snd_inv aug rs
            (cvtColorBGR2RGB (imreadTens (env.imread ip)),
             maskTens (env.convert_ann_to_mask ap ds.class_name))
            ⟨fun c y x => hmask ap ds.class_name y x, rfl⟩
          exact preprocess_mask_binary _ _ hinv.1 hinv.2

/-- C3 witness: the concrete one-sample dataset carries preprocessing
statistics, and at index 0 its returned mask tensor is binary. -/
theorem claim_C3_kernels_witness :
    ds_one.transform_params = some ⟨[0, 0, 0], [1, 1, 1]⟩ ∧
    (∀ img mask, getitem env1 ds_one 0 zeroScores = .ok (img, mask) → isBinaryT mask) :=
  ⟨rfl,
   (claim_C3_kernels env1 ds_one 0 zeroScores ⟨[0, 0, 0], [1, 1, 1]⟩ rfl
      (fun _ _ _ _ => Or.inr rfl)).2.2.2⟩

/-- C4 counterexample: for the unrecognized name `"foo"` the dispatch raises
`ValueError` whose message is exactly `"Unknown model name:"` — the format
placeholder is missing, so the message names neither the offending value nor
any member of the recognized set. -/
theorem claim_C4_counterexample :
    get_model cfgFoo = .error (.valueError "Unknown model name:") ∧
    recognizedNames.all (fun nm => strContainsSub "Unknown model name:" nm) = false := by
  constructor
  · rfl
  · rfl

/-- C4 amended: construction succeeds exactly for the seven recognized
architecture names and fails for every other name with a `ValueError` whose
message is the fixed string `"Unknown model name:"`, which lists neither the
recognized set nor even the offending name. -/
theorem claim_C4_model_dispatch (cfg : ModelCfg) :
    (cfg.model_name ∈ recognizedNames → ∃ m, get_model cfg = .ok m) ∧
    (cfg.model_name ∉ recognizedNames →
      get_model cfg = .error (.valueError "Unknown model name:")) := by
  constructor
  · intro h
    simp only [recognizedNames, List.mem_cons, List.not_mem_nil, or_false] at h
    rcases h with h | h | h | h | h | h | h <;>
      exact ⟨_, by unfold get_model; rw [h]; rfl⟩
  · intro h
    simp only [recognizedNames, List.mem_cons, List.not_mem_nil, or_false, not_or] at h
    obtain ⟨h1, h2, h3, h4, h5, h6, h7⟩ := h
    unfold get_model
    rw [if_neg h1, if_neg h2, if_neg h3, if_neg h4, if_neg h5, if_neg h6, if_neg h7]

/-- C4 amended witness: `"foo"` is outside the recognized set and fails with
the fixed message; the default name `"Unet"` is inside it and constructs. -/
theorem claim_C4_model_dispatch_witness :
    get_model cfgFoo = .error (.valueError "Unknown model name:") ∧
    (∃ m, get_model { } = .ok m) :=
  ⟨(claim_C4_model_dispatch cfgFoo).2 (by decide),
   (claim_C4_model_dispatch { }).1 (by decide)⟩

end CovidTrain
